import Mathlib

/-!
Verification development for the Indavian Mograle plant dashboard
(`app.py`): a read-only Streamlit page that lists input videos from S3,
partitions them by the date embedded in their file names, and for a
selected video derives the detection-log key and clip directory, fetches
and renders the detection log, the clip videos (through presigned URLs)
and a defaulted detection table.

The S3 service, the boto3 client and pandas are modelled as explicit
data; every function of `app.py` is translated one-to-one below, with a
doc comment naming its source location.
-/

/-- Calendar date, the result of `datetime.strptime(s, "%Y-%m-%d").date()`. -/
structure Date where
  year : Nat
  month : Nat
  day : Nat
deriving DecidableEq, Repr

/-- The two failure causes a `boto3` `get_object` call can surface:
`noSuchKey` (the object is absent) and `transport`
(connectivity / permission failure). `app.py` catches both with the same
`except Exception` handler. -/
inductive GetErr where
  | noSuchKey : GetErr
  | transport : GetErr
deriving DecidableEq, Repr

/-- The S3 service and configuration as seen by `app.py`:
`bucket` is `BUCKET_NAME` (line 14); `objects` holds the bucket's keys in
the order the service lists them; `listOk` is false when a
`list_objects_v2` call raises; `getObject` models `s3.get_object`
returning an object body or an error; `sign` models
`s3.generate_presigned_url` for a key and an `ExpiresIn` value, `none`
when the signing call raises. -/
structure S3Backend where
  bucket : String
  objects : List String
  listOk : Bool
  getObject : String → Except GetErr String
  sign : String → Nat → Option String

/-- `INPUT_PREFIX = "Input"` from `app.py` line 15. -/
def inputRoot : String := "Input"

/-- `OUTPUT_PREFIX = "Output"` from `app.py` line 16. -/
def outputRoot : String := "Output"

/-- The default `suffixes` tuple of `list_s3_files` (`app.py` line 39). -/
def videoSuffixes : List String := [".mp4", ".avi", ".mov"]

/-- Python `s.startswith(pre)` on raw key strings. -/
def strStartsWith (s pre : String) : Bool :=
  pre.toList.isPrefixOf s.toList

/-- Python `s.endswith(suf)` for one suffix. -/
def strEndsWith (s suf : String) : Bool :=
  suf.toList.isSuffixOf s.toList

/-- Python `str.lower` on one character (the ASCII range, which is all
the key alphabet the dashboard uses). -/
def lowerChar (c : Char) : Char :=
  if 65 ≤ c.toNat && c.toNat ≤ 90 then Char.ofNat (c.toNat + 32) else c

/-- Python `str.lower` (ASCII model). -/
def strLower (s : String) : String :=
  ⟨s.toList.map lowerChar⟩

/-- Splitter for `str.split(sep)` with a one-character separator:
accumulates the current piece in reverse. -/
def splitOnCharAux (c : Char) : List Char → List Char → List (List Char)
  | [], cur => [cur.reverse]
  | x :: xs, cur =>
    if x = c then cur.reverse :: splitOnCharAux c xs []
    else splitOnCharAux c xs (x :: cur)

/-- Python `s.split(c)` for a one-character separator: at least one
piece, an empty string yielding one empty piece. -/
def splitOnChar (s : String) (c : Char) : List String :=
  (splitOnCharAux c s.toList []).map (fun l => ⟨l⟩)

/-- Model of one `s3.list_objects_v2(Bucket=BUCKET_NAME, Prefix=prefix)`
call (`app.py` line 41): the service returns only the first page of
results, at most 1000 keys (the AWS default `MaxKeys`), namely those
whose key starts with the prefix, in listing order. The source issues
exactly one call with no `ContinuationToken`, so later pages are never
fetched. A raised exception is `.error ()`. -/
def listObjectsV2 (b : S3Backend) (pre : String) : Except Unit (List String) :=
  if b.listOk then .ok ((b.objects.filter (fun k => strStartsWith k pre)).take 1000)
  else .error ()

/-- Python `os.path.basename`: everything after the last slash. -/
def basename (s : String) : String :=
  ⟨(s.toList.reverse.takeWhile (fun c => c != '/')).reverse⟩

/-- Index of the last occurrence of a character in a list, if any. -/
def lastIdx (l : List Char) (c : Char) : Option Nat :=
  ((List.range l.length).filter (fun i => decide (l.get? i = some c))).getLast?

/-- Index of the last slash as Python `rfind` reports it: `-1` if absent. -/
def sepIdx (p : List Char) : Int :=
  match lastIdx p '/' with
  | some i => (i : Int)
  | none => -1

/-- The guard of `posixpath.splitext`: the candidate extension dot at
index `e` lies after the last slash, and some non-dot character stands
between them. -/
def extSepOK (p : List Char) (e : Nat) : Bool :=
  sepIdx p < (e : Int) &&
    (List.range e).any (fun j => decide (sepIdx p < (j : Int)) && decide (p.get? j ≠ some '.'))

/-- Python `os.path.splitext` (posixpath): split off the extension at the
last dot, provided that dot lies after the last slash and some non-dot
character stands between them (so a leading-dot name has no extension). -/
def splitext (s : String) : String × String :=
  match lastIdx s.toList '.' with
  | none => (s, "")
  | some e =>
    if extSepOK s.toList e then (⟨s.toList.take e⟩, ⟨s.toList.drop e⟩)
    else (s, "")

/-- The filter of `app.py` line 43: the key, lowercased, ends with one of
the recognized video suffixes, and the key is not a directory marker. -/
def isVideoKey (suffixes : List String) (k : String) : Bool :=
  suffixes.any (fun suf => strEndsWith (strLower k) suf) && !(strEndsWith k "/")

/-- `list_s3_files(prefix, suffixes=(".mp4", ".avi", ".mov"))` from
`app.py` lines 39-47: one unpaginated `list_objects_v2` call, keep the
keys passing `isVideoKey`, return their base names; any exception is
caught, logged, and an empty list is returned. -/
def list_s3_files (b : S3Backend) (pre : String)
    (suffixes : List String := videoSuffixes) : List String :=
  match listObjectsV2 b pre with
  | .error _ => []
  | .ok keys => (keys.filter (isVideoKey suffixes)).map basename

/-- `generate_presigned_url(key, expiration=3600)` from `app.py`
lines 60-69: ask the service to sign the key for `expiration` seconds;
on any signing error the exception is caught, logged, and `None` is
returned. -/
def generate_presigned_url (b : S3Backend) (key : String)
    (expiration : Nat := 3600) : Option String :=
  b.sign key expiration

/-- A cell value of the pandas DataFrame: a CSV field read as text, a
`NaN` fill for a short row, or a Python float literal written by the
defaulting assignments (`12.9716`, `77.5946`), kept by its source text
since no arithmetic is ever performed on it. -/
inductive PyVal where
  | str : String → PyVal
  | nan : PyVal
  | floatLit : String → PyVal
deriving DecidableEq, Repr

/-- The pandas DataFrame `df_log`: named columns and rows of cells. -/
structure Df where
  columns : List String
  rows : List (List PyVal)
deriving DecidableEq, Repr

/-- Pad a short CSV row with `NaN` cells up to the header width,
as `pandas.read_csv` does. -/
def padRow (n : Nat) (r : List PyVal) : List PyVal :=
  r ++ List.replicate (n - r.length) PyVal.nan

/-- Model of `pd.read_csv(log_obj["Body"])` (`app.py` line 144): the
first non-blank line is the header, the remaining lines are data rows;
an empty body raises `EmptyDataError` and a row longer than the header
raises a tokenizing error; short rows are filled with `NaN`. No column
names are required — any header is accepted. -/
def parseCsv (body : String) : Except Unit Df :=
  match (splitOnChar body '\n').filter (fun l => l != "") with
  | [] => .error ()
  | header :: rest =>
    let cols := splitOnChar header ','
    let rows := rest.map (fun line => (splitOnChar line ',').map PyVal.str)
    if rows.all (fun r => r.length ≤ cols.length) then
      .ok ⟨cols, rows.map (padRow cols.length)⟩
    else .error ()

/-- The detection-log loading of `app.py` lines 142-148: `get_object`
then `read_csv`, with a single `except Exception` handler that treats
every failure — absent object, transport failure, unparseable body —
identically. The error type is `Unit` because the handled outcome
carries no information about the cause. -/
def fetchLog (b : S3Backend) (key : String) : Except Unit Df :=
  match b.getObject key with
  | .error _ => .error ()
  | .ok body =>
    match parseCsv body with
    | .error _ => .error ()
    | .ok df => .ok df

/-- First index of a column name in a header list (pandas column
selection by name). -/
def colIdx (cols : List String) (c : String) : Option Nat :=
  match cols with
  | [] => none
  | x :: rest => if x = c then some 0 else (colIdx rest c).map (fun i => i + 1)

/-- `df[c]`: the cells of the column named `c`, if the column exists. -/
def getCol (df : Df) (c : String) : Option (List PyVal) :=
  (colIdx df.columns c).map (fun i => df.rows.map (fun r => r.getD i PyVal.nan))

/-- `df[c] = v` for a fresh column `c`: append the column name and give
every row the scalar value `v` (`app.py` lines 184-189). -/
def addColumn (df : Df) (c : String) (v : PyVal) : Df :=
  ⟨df.columns ++ [c], df.rows.map (fun r => r ++ [v])⟩

/-- The `video_link` default of `app.py` line 189:
`f"s3://{BUCKET_NAME}/{clips_prefix}/{clip_files[0]}" if clip_files else "N/A"`. -/
def defaultVideoLink (bucket clipsDir : String) (clip_files : List String) : PyVal :=
  match clip_files with
  | [] => PyVal.str "N/A"
  | c :: _ => PyVal.str ("s3://" ++ bucket ++ "/" ++ clipsDir ++ "/" ++ c)

/-- One defaulting statement of `app.py` lines 184-189:
`if name not in df_log.columns: df_log[name] = v`. -/
def withDefault (df : Df) (name : String) (v : PyVal) : Df :=
  if name ∈ df.columns then df else addColumn df name v

/-- The column defaulting of `app.py` lines 184-189: each of `latitude`,
`longitude`, `video_link`, in that order, is added with its fixed
default only when absent from the fetched log. -/
def applyDefaults (bucket : String) (df : Df) (clipsDir : String)
    (clip_files : List String) : Df :=
  withDefault
    (withDefault
      (withDefault df "latitude" (PyVal.floatLit "12.9716"))
      "longitude" (PyVal.floatLit "77.5946"))
    "video_link" (defaultVideoLink bucket clipsDir clip_files)

/-- `df_log[['class', 'video_link', 'timestamp', 'latitude', 'longitude']]`
(`app.py` line 190): select columns by name; a missing name raises
`KeyError`, modelled as `none` (the handler at line 191-193 shows an
error box instead of the table). -/
def selectCols (df : Df) (cols : List String) : Option Df :=
  if cols.all (fun c => df.columns.contains c) then
    some ⟨cols, df.rows.map (fun r => cols.map (fun c =>
      match colIdx df.columns c with
      | some i => r.getD i PyVal.nan
      | none => PyVal.nan))⟩
  else none

/-- The derived locations of `app.py` lines 133-138, with their source
names: `detectionDir` is `detection_prefix`, `logKey` is `log_key`,
`clipsDir` is `clips_prefix`. -/
structure DerivedPaths where
  detectionDir : String
  logKey : String
  clipsDir : String
deriving DecidableEq, Repr

/-- Lines 133-138 of `app.py`: strip the extension from the selected
file name, prepend `OUTPUT_PREFIX`, and append the fixed suffixes for
the detection log and the clip directory. -/
def derivePaths (selected_input : String) : DerivedPaths :=
  let selected_name := (splitext selected_input).1
  let dir := outputRoot ++ "/" ++ selected_name
  ⟨dir, dir ++ "/detection_csv/detection_log.csv", dir ++ "/video_clips"⟩

/-- `input_key = f"{INPUT_PREFIX}/{selected_input}"` (`app.py` line 125). -/
def inputKeyOf (selected_input : String) : String :=
  inputRoot ++ "/" ++ selected_input

/-- Everything the page shows for a selected video whose detection log
loaded: the (possibly absent) input video URL, the defaulted detection
frame, the listed clip file names, the presigned clip URLs that were
actually rendered (a failed signing is skipped, line 164), the pie-chart
total when the `class` column exists (lines 171-179), and the selected
table columns when all five exist (lines 183-193). -/
structure RenderedView where
  input_url : Option String
  detections : Df
  clip_files : List String
  clip_urls : List String
  pie_total : Option Nat
  table : Option Df
deriving DecidableEq, Repr

/-- Outcome of one rendering pass of `app.py`:
`halted` is `st.stop()` after the warning of line 147, `rendered` is a
fully drawn page, `noVideo` is the `st.info` branch of line 195 when no
video is selected. -/
inductive PageOutcome where
  | halted : String → PageOutcome
  | rendered : RenderedView → PageOutcome
  | noVideo : PageOutcome
deriving DecidableEq, Repr

/-- True exactly on a `rendered` outcome. -/
def isRendered : PageOutcome → Bool
  | .rendered _ => true
  | _ => false

/-- True exactly on a `halted` outcome. -/
def isHalted : PageOutcome → Bool
  | .halted _ => true
  | _ => false

/-- Lines 124-193 of `app.py`, the pass over one selected video:
issue the input URL (a `None` only draws an error box, line 130), derive
paths, load the detection log — on any failure warn and `st.stop()` —
then list clips, sign each clip key (skipping failures), compute the
pie-chart total, default the log columns and select the table columns. -/
def renderSelected (b : S3Backend) (selected_input : String) : PageOutcome :=
  let input_url := generate_presigned_url b (inputKeyOf selected_input)
  let dp := derivePaths selected_input
  match fetchLog b dp.logKey with
  | .error _ => .halted "Detection log not found in S3. Run the processing script first."
  | .ok df =>
    let clip_files := list_s3_files b dp.clipsDir
    let clip_urls := clip_files.filterMap
      (fun cf => generate_presigned_url b (dp.clipsDir ++ "/" ++ cf))
    let pie_total := if "class" ∈ df.columns then some df.rows.length else none
    let detections := applyDefaults b.bucket df dp.clipsDir clip_files
    let table := selectCols detections
      ["class", "video_link", "timestamp", "latitude", "longitude"]
    .rendered ⟨input_url, detections, clip_files, clip_urls, pie_total, table⟩

/-- `filename.split("_")[0]` (`app.py` line 100): the text before the
first underscore, the whole name when there is none. -/
def dateToken (f : String) : String :=
  ⟨f.toList.takeWhile (fun c => c != '_')⟩

/-- Digit string to number. -/
def strToNat (s : String) : Nat :=
  s.toList.foldl (fun n c => 10 * n + (c.toNat - 48)) 0

/-- Gregorian leap year, as `datetime.date` uses. -/
def isLeap (y : Nat) : Bool :=
  (y % 4 == 0 && y % 100 != 0) || y % 400 == 0

/-- Length of a month, as `datetime.date` validates. -/
def daysInMonth (y m : Nat) : Nat :=
  if m = 2 then (if isLeap y then 29 else 28)
  else if m = 4 ∨ m = 6 ∨ m = 9 ∨ m = 11 then 30 else 31

/-- `datetime.strptime(date_str, "%Y-%m-%d").date()` (`app.py`
line 101): exactly four year digits, one or two month digits, one or two
day digits separated by dashes with nothing left over (the CPython
`_strptime` regex), then the `datetime.date` range checks; any failure
raises `ValueError`, modelled as `none`. -/
def parseIsoDate (s : String) : Option Date :=
  match splitOnChar s '-' with
  | [ys, ms, ds] =>
    if ys.length = 4 && ys.toList.all Char.isDigit
        && (ms.length = 1 || ms.length = 2) && ms.toList.all Char.isDigit
        && (ds.length = 1 || ds.length = 2) && ds.toList.all Char.isDigit then
      let y := strToNat ys
      let m := strToNat ms
      let d := strToNat ds
      if 1 ≤ y && 1 ≤ m && m ≤ 12 && 1 ≤ d && d ≤ daysInMonth y m then
        some ⟨y, m, d⟩
      else none
    else none
  | _ => none

/-- The date a video file name parses to, if any (`app.py` lines 100-101). -/
def videoDateKey (f : String) : Option Date :=
  parseIsoDate (dateToken f)

/-- `video_date_map.setdefault(date_obj, []).append(filename)`
(`app.py` line 102) on an insertion-ordered association list. -/
def insertVideo (m : List (Date × List String)) (d : Date) (f : String) :
    List (Date × List String) :=
  match m with
  | [] => [(d, [f])]
  | (d', fs) :: rest =>
    if d' = d then (d', fs ++ [f]) :: rest else (d', fs) :: insertVideo rest d f

/-- One iteration of the loop at `app.py` lines 98-104: a parseable name
goes into its date bucket, an unparseable one is logged as a warning and
skipped. -/
def dmStep (acc : List (Date × List String) × List String) (f : String) :
    List (Date × List String) × List String :=
  match videoDateKey f with
  | some d => (insertVideo acc.1 d f, acc.2)
  | none => (acc.1, acc.2 ++ [f])

/-- The loop of `app.py` lines 97-104 over the listed input videos:
returns `video_date_map` together with the list of skipped (warned)
file names. -/
def buildVideoDateMap (files : List String) :
    List (Date × List String) × List String :=
  files.foldl dmStep ([], [])

/-- `video_date_map.get(selected_date, [])` (`app.py` line 113). -/
def lookupD (m : List (Date × List String)) (d : Date) : List String :=
  match m with
  | [] => []
  | (d', fs) :: rest => if d' = d then fs else lookupD rest d

/-- The whole rendering pass of `app.py` lines 94-195 for a chosen
date: list the input videos, build the date map, take the videos of the
selected date — `st.selectbox` returns its first option by default
(line 116), and an empty list leaves `selected_input = None`, reaching
the `st.info` branch of line 195 — then render the selected video. -/
def runApp (b : S3Backend) (selected_date : Date) : PageOutcome :=
  let input_videos := list_s3_files b inputRoot
  let m := (buildVideoDateMap input_videos).1
  match (lookupD m selected_date).head? with
  | none => .noVideo
  | some sel => renderSelected b sel

/-! ### Concrete backends used as test fixtures -/

/-- Fixture: the detection log object is absent (`NoSuchKey`), clips for
the job exist, every signing call succeeds. -/
def bLogAbsent : S3Backend where
  bucket := "b"
  objects := ["Output/2025-07-21_cam1/video_clips/a.mp4"]
  listOk := true
  getObject := fun _ => .error .noSuchKey
  sign := fun k _ => some ("https://signed/" ++ k)

/-- Fixture: every `get_object` call fails with a transport error. -/
def bTransport : S3Backend where
  bucket := "b"
  objects := ["Output/2025-07-21_cam1/video_clips/a.mp4"]
  listOk := true
  getObject := fun _ => .error .transport
  sign := fun k _ => some ("https://signed/" ++ k)

/-- Fixture: the detection log parses but has neither a `class` nor a
`timestamp` column. -/
def bNoCols : S3Backend where
  bucket := "b"
  objects := ["Output/2025-07-21_cam1/video_clips/a.mp4"]
  listOk := true
  getObject := fun _ => .ok "foo\n1"
  sign := fun k _ => some ("https://signed/" ++ k)

/-- Fixture: a clip directory holding one video, a directory marker and
a non-video file. -/
def bClips : S3Backend where
  bucket := "b"
  objects := ["Output/v/video_clips/a.mp4", "Output/v/video_clips/",
              "Output/v/video_clips/notes.txt"]
  listOk := true
  getObject := fun _ => .error .noSuchKey
  sign := fun _ _ => none

/-- Fixture: the bucket holds an input video but every listing call
raises. -/
def bListDown : S3Backend where
  bucket := "b"
  objects := ["Input/2025-07-21_cam1.mp4"]
  listOk := false
  getObject := fun _ => .error .noSuchKey
  sign := fun _ _ => none

/-- Fixture: same bucket contents as `bListDown` with listing healthy. -/
def bListUp : S3Backend where
  bucket := "b"
  objects := ["Input/2025-07-21_cam1.mp4"]
  listOk := true
  getObject := fun _ => .error .noSuchKey
  sign := fun _ _ => none

/-- Fixture: an empty bucket with listing healthy. -/
def bEmptyBucket : S3Backend where
  bucket := "b"
  objects := []
  listOk := true
  getObject := fun _ => .error .noSuchKey
  sign := fun _ _ => none

/-- Fixture: the detection log loads, two clips exist, and signing
succeeds only for the input video key — every clip signing call fails. -/
def bSignClipsFail : S3Backend where
  bucket := "b"
  objects := ["Output/vid/video_clips/c1.mp4", "Output/vid/video_clips/c2.mp4"]
  listOk := true
  getObject := fun k =>
    if k = "Output/vid/detection_csv/detection_log.csv" then
      .ok "class,timestamp\nboar,t1"
    else .error .noSuchKey
  sign := fun k _ => if k = "Input/vid.mp4" then some "https://in" else none

/-- Fixture: a detection log with only the two mandatory columns and a
single row. -/
def dfBoar : Df :=
  ⟨["class", "timestamp"], [[PyVal.str "boar", PyVal.str "t1"]]⟩

/-- Fixture: 1001 objects under one prefix, one more than a listing
page holds. -/
def bBig : S3Backend where
  bucket := "b"
  objects := List.replicate 1001 "P/a.mp4"
  listOk := true
  getObject := fun _ => .error .noSuchKey
  sign := fun _ _ => none

/-! ### Helper lemmas -/

theorem string_mk_append (a b : List Char) : (⟨a⟩ : String) ++ ⟨b⟩ = ⟨a ++ b⟩ := rfl

theorem string_append_empty (s : String) : s ++ "" = s := by
  cases s with
  | mk data =>
    show String.mk (data ++ []) = ⟨data⟩
    rw [List.append_nil]

/-- `splitext` splits the name: name plus extension re-concatenate to
the original string. -/
theorem splitext_concat (s : String) : (splitext s).1 ++ (splitext s).2 = s := by
  unfold splitext
  rcases h : lastIdx s.toList '.' with _ | e
  · exact string_append_empty s
  · by_cases hg : extSepOK s.toList e = true
    · simp only [hg, if_true]
      rw [string_mk_append, List.take_append_drop]
      cases s
      rfl
    · simp only [hg, if_false, Bool.false_eq_true]
      exact string_append_empty s

/-! ### Claim theorems -/

/-- Claim C2: key derivation is a pure, deterministic function of the
selected job: the derived output prefix is the output root plus the file
name with its extension stripped, the detection-log key is the derived
prefix followed by `/detection_csv/detection_log.csv`, the clips prefix
is the derived prefix followed by `/video_clips`, and two calls with an
identical job yield byte-identical derived paths. -/
theorem claim_C2 (f g : String) (h : f = g) :
    (splitext f).1 ++ (splitext f).2 = f
  ∧ (derivePaths f).detectionDir = outputRoot ++ "/" ++ (splitext f).1
  ∧ (derivePaths f).logKey
      = (derivePaths f).detectionDir ++ "/detection_csv/detection_log.csv"
  ∧ (derivePaths f).clipsDir = (derivePaths f).detectionDir ++ "/video_clips"
  ∧ derivePaths f = derivePaths g := by
  subst h
  exact ⟨splitext_concat f, rfl, rfl, rfl, rfl⟩

/-- Witness for C2 at the file name `2025-07-21_cam1.mp4`. -/
theorem claim_C2_witness :
    ("2025-07-21_cam1.mp4" = "2025-07-21_cam1.mp4")
  ∧ ((splitext "2025-07-21_cam1.mp4").1 ++ (splitext "2025-07-21_cam1.mp4").2
        = "2025-07-21_cam1.mp4"
    ∧ (derivePaths "2025-07-21_cam1.mp4").detectionDir
        = outputRoot ++ "/" ++ (splitext "2025-07-21_cam1.mp4").1
    ∧ (derivePaths "2025-07-21_cam1.mp4").logKey
        = (derivePaths "2025-07-21_cam1.mp4").detectionDir ++ "/detection_csv/detection_log.csv"
    ∧ (derivePaths "2025-07-21_cam1.mp4").clipsDir
        = (derivePaths "2025-07-21_cam1.mp4").detectionDir ++ "/video_clips"
    ∧ derivePaths "2025-07-21_cam1.mp4" = derivePaths "2025-07-21_cam1.mp4") :=
  ⟨rfl, claim_C2 "2025-07-21_cam1.mp4" "2025-07-21_cam1.mp4" rfl⟩

/-- Claim C1 counterexample: with the detection log object absent and
clips present (`bLogAbsent`), the pass over the selected video halts at
the `st.stop()` of line 148 — it does not return a rendered view with an
empty detections sequence, and clip listing and URL issuance never
proceed. -/
theorem claim_C1_counterexample :
    renderSelected bLogAbsent "2025-07-21_cam1.mp4"
      = PageOutcome.halted "Detection log not found in S3. Run the processing script first."
  ∧ isRendered (renderSelected bLogAbsent "2025-07-21_cam1.mp4") = false := by
  exact ⟨rfl, rfl⟩

/-- Claim C1 amended: when fetching the detection log fails — absence
included — the script logs a warning, shows the fixed
`Detection log not found` message and halts the whole rendering pass
with `st.stop()`; no view is produced, and clip listing and clip URL
issuance do not proceed. The outcome carries no distinction from a
transport failure. -/
theorem claim_C1_amended (b : S3Backend) (s : String) (e : GetErr)
    (h : b.getObject (derivePaths s).logKey = Except.error e) :
    renderSelected b s
      = PageOutcome.halted "Detection log not found in S3. Run the processing script first." := by
  unfold renderSelected
  simp only [fetchLog, h]

/-- Witness for the amended C1 at the fixture `bLogAbsent`. -/
theorem claim_C1_witness :
    bLogAbsent.getObject (derivePaths "2025-07-21_cam1.mp4").logKey
      = Except.error GetErr.noSuchKey
  ∧ renderSelected bLogAbsent "2025-07-21_cam1.mp4"
      = PageOutcome.halted "Detection log not found in S3. Run the processing script first." :=
  ⟨rfl, claim_C1_amended bLogAbsent "2025-07-21_cam1.mp4" GetErr.noSuchKey rfl⟩

/-- A `setdefault`-append changes only the bucket of its own date, where
it appends the file at the end. -/
theorem lookupD_insertVideo (m : List (Date × List String)) (e d : Date) (f : String) :
    lookupD (insertVideo m e f) d
      = if e = d then lookupD m d ++ [f] else lookupD m d := by
  induction m with
  | nil => by_cases h : e = d <;> simp [insertVideo, lookupD, h]
  | cons hd tl ih =>
    obtain ⟨d', fs⟩ := hd
    by_cases h1 : d' = e
    · subst h1
      by_cases h2 : d' = d <;> simp [insertVideo, lookupD, h2]
    · by_cases h2 : d' = d
      · subst h2
        have h3 : ¬ e = d' := fun h => h1 h.symm
        simp [insertVideo, lookupD, h1, h3]
      · simp [insertVideo, lookupD, h1, h2, ih]

/-- The date-map loop, bucket view: after folding, each date's bucket is
the accumulator's bucket followed by the files parsing to that date, in
file order. -/
theorem dm_fold_lookup (files : List String)
    (acc : List (Date × List String) × List String) (d : Date) :
    lookupD (files.foldl dmStep acc).1 d
      = lookupD acc.1 d ++ files.filter (fun f => decide (videoDateKey f = some d)) := by
  induction files generalizing acc with
  | nil => simp
  | cons f fs ih =>
    rw [List.foldl_cons, ih]
    rcases h : videoDateKey f with _ | e
    · simp [dmStep, h]
    · by_cases h2 : e = d
      · subst h2
        simp [dmStep, h, lookupD_insertVideo]
      · simp [dmStep, h, lookupD_insertVideo, h2]

/-- The date-map loop, warning view: the warned files are exactly the
unparseable ones, in file order. -/
theorem dm_fold_warn (files : List String)
    (acc : List (Date × List String) × List String) :
    (files.foldl dmStep acc).2
      = acc.2 ++ files.filter (fun f => decide (videoDateKey f = none)) := by
  induction files generalizing acc with
  | nil => simp
  | cons f fs ih =>
    rw [List.foldl_cons, ih]
    rcases h : videoDateKey f with _ | e <;> simp [dmStep, h]

/-- Claim C5: the date filter is an exact partition of the cached job
index — for every date, the videos returned for that date are exactly
the listed videos whose parsed upload date equals that date (in listing
order), and a video lies in some date's bucket exactly when it is listed
and parseable, so the union of the per-date groups is the full cached
set of parseable videos. -/
theorem claim_C5 (files : List String) (d : Date) :
    lookupD (buildVideoDateMap files).1 d
      = files.filter (fun f => decide (videoDateKey f = some d))
  ∧ ∀ f, (∃ e, f ∈ lookupD (buildVideoDateMap files).1 e)
      ↔ f ∈ files ∧ (videoDateKey f).isSome := by
  have h1 : ∀ e, lookupD (buildVideoDateMap files).1 e
      = files.filter (fun f => decide (videoDateKey f = some e)) := by
    intro e
    simpa [buildVideoDateMap, lookupD] using dm_fold_lookup files ([], []) e
  refine ⟨h1 d, ?_⟩
  intro f
  constructor
  · rintro ⟨e, hf⟩
    rw [h1 e, List.mem_filter] at hf
    refine ⟨hf.1, ?_⟩
    rw [Option.isSome_iff_exists]
    exact ⟨e, by simpa using hf.2⟩
  · rintro ⟨hmem, hsome⟩
    obtain ⟨e, he⟩ := Option.isSome_iff_exists.mp hsome
    refine ⟨e, ?_⟩
    rw [h1 e, List.mem_filter]
    exact ⟨hmem, by simp [he]⟩

/-- Claim C6: a listed file whose name does not parse to a valid date is
excluded from every date bucket of the index and is recorded in the
warned list; index construction is a total function, so such files never
make it raise. -/
theorem claim_C6 (files : List String) (f : String)
    (hbad : videoDateKey f = none) (hmem : f ∈ files) :
    (∀ d, f ∉ lookupD (buildVideoDateMap files).1 d)
  ∧ f ∈ (buildVideoDateMap files).2 := by
  have h1 : ∀ d, lookupD (buildVideoDateMap files).1 d
      = files.filter (fun g => decide (videoDateKey g = some d)) := by
    intro d
    simpa [buildVideoDateMap, lookupD] using dm_fold_lookup files ([], []) d
  have h2 : (buildVideoDateMap files).2
      = files.filter (fun g => decide (videoDateKey g = none)) := by
    simpa [buildVideoDateMap] using dm_fold_warn files ([], [])
  refine ⟨?_, ?_⟩
  · intro d hf
    rw [h1 d, List.mem_filter, hbad] at hf
    simp at hf
  · rw [h2, List.mem_filter]
    exact ⟨hmem, by simp [hbad]⟩

/-- Witness for C6: in a listing holding one well-formed name and one
malformed name, the malformed one lands in no bucket and is warned. -/
theorem claim_C6_witness :
    videoDateKey "notadate_cam.mp4" = none
  ∧ "notadate_cam.mp4" ∈ ["2025-07-21_cam1.mp4", "notadate_cam.mp4"]
  ∧ ((∀ d, "notadate_cam.mp4"
        ∉ lookupD (buildVideoDateMap ["2025-07-21_cam1.mp4", "notadate_cam.mp4"]).1 d)
    ∧ "notadate_cam.mp4" ∈ (buildVideoDateMap ["2025-07-21_cam1.mp4", "notadate_cam.mp4"]).2) :=
  ⟨by decide, by decide,
    claim_C6 ["2025-07-21_cam1.mp4", "notadate_cam.mp4"] "notadate_cam.mp4"
      (by decide) (by decide)⟩

/-- Filtering a constant list keeps everything when the element passes. -/
theorem filter_replicate_of_pos {α : Type} (n : Nat) (a : α) (p : α → Bool)
    (h : p a = true) : (List.replicate n a).filter p = List.replicate n a := by
  induction n with
  | zero => rfl
  | succ n ih => simp [List.replicate_succ, List.filter_cons, h, ih]

/-- Claim C4 counterexample: listing the clip directory of `bClips`
returns the base file name `a.mp4`, not the storage key
`Output/v/video_clips/a.mp4`; the storage key itself is absent from the
result, so the listing does not return the storage keys of the matching
objects. -/
theorem claim_C4_counterexample :
    list_s3_files bClips "Output/v/video_clips" = ["a.mp4"]
  ∧ "a.mp4" ≠ "Output/v/video_clips/a.mp4"
  ∧ "Output/v/video_clips/a.mp4" ∉ list_s3_files bClips "Output/v/video_clips" := by
  refine ⟨by decide, by decide, by decide⟩

/-- Claim C4 amended: for every prefix, when the listing call succeeds
`list_s3_files` returns the base names (final path component) — not the
full storage keys — of exactly those first-page keys under the prefix
whose lowercased name ends in a recognized video extension
(`.mp4`, `.avi`, `.mov`), directory markers excluded; zero matching
objects yield an empty list, not an error. -/
theorem claim_C4_amended (b : S3Backend) (pre : String) (keys : List String)
    (hok : listObjectsV2 b pre = Except.ok keys) :
    (∀ x, x ∈ list_s3_files b pre
        ↔ ∃ k, k ∈ keys ∧ isVideoKey videoSuffixes k = true ∧ x = basename k)
  ∧ (keys.filter (isVideoKey videoSuffixes) = [] → list_s3_files b pre = []) := by
  have hl : list_s3_files b pre
      = (keys.filter (isVideoKey videoSuffixes)).map basename := by
    unfold list_s3_files
    rw [hok]
  constructor
  · intro x
    rw [hl, List.mem_map]
    constructor
    · rintro ⟨k, hk, rfl⟩
      rw [List.mem_filter] at hk
      exact ⟨k, hk.1, hk.2, rfl⟩
    · rintro ⟨k, hk1, hk2, rfl⟩
      exact ⟨k, List.mem_filter.mpr ⟨hk1, hk2⟩, rfl⟩
  · intro h0
    rw [hl, h0]
    rfl

/-- Witness for the amended C4 at the fixture `bClips`: of the three
listed keys only the video survives, as its base name. -/
theorem claim_C4_witness :
    listObjectsV2 bClips "Output/v/video_clips"
      = Except.ok ["Output/v/video_clips/a.mp4", "Output/v/video_clips/",
                   "Output/v/video_clips/notes.txt"]
  ∧ ((∀ x, x ∈ list_s3_files bClips "Output/v/video_clips"
        ↔ ∃ k, k ∈ ["Output/v/video_clips/a.mp4", "Output/v/video_clips/",
                    "Output/v/video_clips/notes.txt"]
            ∧ isVideoKey videoSuffixes k = true ∧ x = basename k)
    ∧ (["Output/v/video_clips/a.mp4", "Output/v/video_clips/",
        "Output/v/video_clips/notes.txt"].filter (isVideoKey videoSuffixes) = []
        → list_s3_files bClips "Output/v/video_clips" = [])) :=
  ⟨rfl,
    claim_C4_amended bClips "Output/v/video_clips"
      ["Output/v/video_clips/a.mp4", "Output/v/video_clips/",
       "Output/v/video_clips/notes.txt"] rfl⟩

/-- Claim C9 counterexample: with the backing listing failing
(`bListDown`, whose bucket does hold a listable input video, as
`bListUp` shows), the job index is the same empty list a genuinely
empty bucket (`bEmptyBucket`) produces — no source-unavailable
condition reaches the caller — and the rendering pass does not halt: it
proceeds to the ordinary no-video path. -/
theorem claim_C9_counterexample :
    bListDown.objects = ["Input/2025-07-21_cam1.mp4"]
  ∧ list_s3_files bListUp inputRoot = ["2025-07-21_cam1.mp4"]
  ∧ list_s3_files bListDown inputRoot = []
  ∧ list_s3_files bListDown inputRoot = list_s3_files bEmptyBucket inputRoot
  ∧ runApp bListDown ⟨2025, 7, 21⟩ = PageOutcome.noVideo
  ∧ isHalted (runApp bListDown ⟨2025, 7, 21⟩) = false := by
  refine ⟨rfl, by decide, by decide, by decide, by decide, by decide⟩

/-- Claim C9 amended: when the backing listing fails, the error is only
logged — the job index is returned as an empty sequence
indistinguishable from an empty listing, no source-unavailable condition
is signalled to the caller, and rendering proceeds to the normal
no-selection path instead of halting. -/
theorem claim_C9_amended (b : S3Backend) (d : Date) (h : b.listOk = false) :
    list_s3_files b inputRoot = [] ∧ runApp b d = PageOutcome.noVideo := by
  have hl : list_s3_files b inputRoot = [] := by
    unfold list_s3_files listObjectsV2
    rw [h]
    rfl
  refine ⟨hl, ?_⟩
  unfold runApp
  rw [hl]
  rfl

/-- Witness for the amended C9 at the fixture `bListDown`. -/
theorem claim_C9_witness :
    bListDown.listOk = false
  ∧ (list_s3_files bListDown inputRoot = []
    ∧ runApp bListDown ⟨2025, 7, 21⟩ = PageOutcome.noVideo) :=
  ⟨rfl, claim_C9_amended bListDown ⟨2025, 7, 21⟩ rfl⟩

/-- Claim C10: every storage listing issues one unpaginated list call,
so only the first page — at most 1000 keys — is ever considered: when
more objects than one page match the prefix, the listing the code
consumes holds exactly 1000 keys, strictly fewer than the matching
objects (the rest are silently omitted), and the produced file list can
never exceed 1000 entries. -/
theorem claim_C10 (b : S3Backend) (pre : String)
    (h1 : b.listOk = true)
    (h2 : 1000 < (b.objects.filter (fun k => strStartsWith k pre)).length) :
    ∃ keys, listObjectsV2 b pre = Except.ok keys
      ∧ keys.length = 1000
      ∧ keys.length < (b.objects.filter (fun k => strStartsWith k pre)).length
      ∧ (list_s3_files b pre).length ≤ 1000 := by
  have hkeys : listObjectsV2 b pre
      = Except.ok ((b.objects.filter (fun k => strStartsWith k pre)).take 1000) := by
    unfold listObjectsV2
    rw [h1]
    rfl
  refine ⟨_, hkeys, ?_, ?_, ?_⟩
  · rw [List.length_take]
    exact Nat.min_eq_left (Nat.le_of_lt h2)
  · rw [List.length_take, Nat.min_eq_left (Nat.le_of_lt h2)]
    exact h2
  · have hl : list_s3_files b pre
        = ((((b.objects.filter (fun k => strStartsWith k pre)).take 1000).filter
            (isVideoKey videoSuffixes)).map basename) := by
      unfold list_s3_files
      rw [hkeys]
    rw [hl, List.length_map]
    calc ((((b.objects.filter (fun k => strStartsWith k pre)).take 1000).filter
            (isVideoKey videoSuffixes))).length
        ≤ ((b.objects.filter (fun k => strStartsWith k pre)).take 1000).length :=
          List.length_filter_le _ _
      _ ≤ 1000 := by
          rw [List.length_take]
          exact Nat.min_le_left _ _

/-- Witness for C10 at the fixture `bBig`, whose 1001 matching objects
exceed one listing page by one. -/
theorem claim_C10_witness :
    bBig.listOk = true
  ∧ 1000 < (bBig.objects.filter (fun k => strStartsWith k "P/")).length
  ∧ (∃ keys, listObjectsV2 bBig "P/" = Except.ok keys
      ∧ keys.length = 1000
      ∧ keys.length < (bBig.objects.filter (fun k => strStartsWith k "P/")).length
      ∧ (list_s3_files bBig "P/").length ≤ 1000) := by
  have hBig : 1000 < (bBig.objects.filter (fun k => strStartsWith k "P/")).length := by
    show 1000 < ((List.replicate 1001 "P/a.mp4").filter (fun k => strStartsWith k "P/")).length
    rw [filter_replicate_of_pos 1001 "P/a.mp4" _ (by decide), List.length_replicate]
    decide
  exact ⟨rfl, hBig, claim_C10 bBig "P/" rfl hBig⟩

/-- Claim C7: presigned URL issuance fails closed with default expiry
3600 seconds. Whenever the detection log loads, the pass renders a view
whose input URL is exactly the signing result for the input key at
ttl 3600, whose clip URLs are the successfully signed clip keys at
ttl 3600 in discovery order — a failed signing only drops that clip, so
the rendered clip URLs never exceed the listed clips and each one comes
from some listed clip — and whose detections are computed independently
of every signing outcome; a null URL never breaks the page. -/
theorem claim_C7 (b : S3Backend) (s : String) (df : Df)
    (hlog : fetchLog b (derivePaths s).logKey = Except.ok df) :
    ∃ v : RenderedView, renderSelected b s = PageOutcome.rendered v
      ∧ v.input_url = b.sign (inputKeyOf s) 3600
      ∧ v.clip_files = list_s3_files b (derivePaths s).clipsDir
      ∧ v.clip_urls = v.clip_files.filterMap
          (fun cf => b.sign ((derivePaths s).clipsDir ++ "/" ++ cf) 3600)
      ∧ v.clip_urls.length ≤ v.clip_files.length
      ∧ (∀ u ∈ v.clip_urls, ∃ cf, cf ∈ v.clip_files
          ∧ b.sign ((derivePaths s).clipsDir ++ "/" ++ cf) 3600 = some u)
      ∧ v.detections = applyDefaults b.bucket df (derivePaths s).clipsDir v.clip_files := by
  have hr : renderSelected b s = PageOutcome.rendered
      ⟨generate_presigned_url b (inputKeyOf s),
       applyDefaults b.bucket df (derivePaths s).clipsDir
         (list_s3_files b (derivePaths s).clipsDir),
       list_s3_files b (derivePaths s).clipsDir,
       (list_s3_files b (derivePaths s).clipsDir).filterMap
         (fun cf => generate_presigned_url b ((derivePaths s).clipsDir ++ "/" ++ cf)),
       (if "class" ∈ df.columns then some df.rows.length else none),
       selectCols
         (applyDefaults b.bucket df (derivePaths s).clipsDir
           (list_s3_files b (derivePaths s).clipsDir))
         ["class", "video_link", "timestamp", "latitude", "longitude"]⟩ := by
    simp only [renderSelected, hlog]
  refine ⟨_, hr, rfl, rfl, rfl, List.length_filterMap_le _ _, ?_, rfl⟩
  intro u hu
  rw [List.mem_filterMap] at hu
  obtain ⟨cf, hcf, hsign⟩ := hu
  exact ⟨cf, hcf, hsign⟩

/-- Witness for C7 at the fixture `bSignClipsFail`: the log loads, both
clips are listed, every clip signing fails while the input signing
succeeds. -/
theorem claim_C7_witness :
    fetchLog bSignClipsFail (derivePaths "vid.mp4").logKey
      = Except.ok ⟨["class", "timestamp"], [[PyVal.str "boar", PyVal.str "t1"]]⟩
  ∧ (∃ v : RenderedView,
      renderSelected bSignClipsFail "vid.mp4" = PageOutcome.rendered v
      ∧ v.input_url = bSignClipsFail.sign (inputKeyOf "vid.mp4") 3600
      ∧ v.clip_files = list_s3_files bSignClipsFail (derivePaths "vid.mp4").clipsDir
      ∧ v.clip_urls = v.clip_files.filterMap
          (fun cf => bSignClipsFail.sign ((derivePaths "vid.mp4").clipsDir ++ "/" ++ cf) 3600)
      ∧ v.clip_urls.length ≤ v.clip_files.length
      ∧ (∀ u ∈ v.clip_urls, ∃ cf, cf ∈ v.clip_files
          ∧ bSignClipsFail.sign ((derivePaths "vid.mp4").clipsDir ++ "/" ++ cf) 3600 = some u)
      ∧ v.detections = applyDefaults bSignClipsFail.bucket
          ⟨["class", "timestamp"], [[PyVal.str "boar", PyVal.str "t1"]]⟩
          (derivePaths "vid.mp4").clipsDir v.clip_files) :=
  ⟨rfl, claim_C7 bSignClipsFail "vid.mp4"
    ⟨["class", "timestamp"], [[PyVal.str "boar", PyVal.str "t1"]]⟩ rfl⟩

/-- Claim C8 counterexample: the detection-log fetch does not
distinguish failure causes — an absent object (`bLogAbsent`) and a
transport failure (`bTransport`) give identical fetch results and
identical page outcomes — and a log lacking both mandatory columns
(`bNoCols`) is accepted and the page rendered, rather than the content
being escalated as a parse error. -/
theorem claim_C8_counterexample :
    bLogAbsent.getObject "Output/2025-07-21_cam1/detection_csv/detection_log.csv"
      = Except.error GetErr.noSuchKey
  ∧ bTransport.getObject "Output/2025-07-21_cam1/detection_csv/detection_log.csv"
      = Except.error GetErr.transport
  ∧ fetchLog bLogAbsent "Output/2025-07-21_cam1/detection_csv/detection_log.csv"
      = fetchLog bTransport "Output/2025-07-21_cam1/detection_csv/detection_log.csv"
  ∧ renderSelected bLogAbsent "2025-07-21_cam1.mp4"
      = renderSelected bTransport "2025-07-21_cam1.mp4"
  ∧ fetchLog bNoCols "Output/2025-07-21_cam1/detection_csv/detection_log.csv"
      = Except.ok ⟨["foo"], [[PyVal.str "1"]]⟩
  ∧ isRendered (renderSelected bNoCols "2025-07-21_cam1.mp4") = true := by
  refine ⟨rfl, rfl, rfl, by decide, rfl, by decide⟩

/-- Claim C8 amended: the single `except Exception` handler makes every
detection-log fetch failure uniform — two backends failing for different
causes produce the same uninformative error — while a body that parses
is accepted unchanged, whatever its columns: the mandatory `class` and
`timestamp` columns are never checked at fetch time. -/
theorem claim_C8_amended (b b' bp : S3Backend) (k : String) (e e' : GetErr)
    (body : String) (df : Df)
    (h : b.getObject k = Except.error e) (h' : b'.getObject k = Except.error e')
    (hp : bp.getObject k = Except.ok body) (hparse : parseCsv body = Except.ok df) :
    fetchLog b k = Except.error () ∧ fetchLog b k = fetchLog b' k
  ∧ fetchLog bp k = Except.ok df := by
  simp only [fetchLog, h, h', hp, hparse]
  exact ⟨trivial, trivial, trivial⟩

/-- Witness for the amended C8 at the fixtures `bLogAbsent`,
`bTransport` and `bNoCols`, with the classless body `foo` / `1`. -/
theorem claim_C8_witness :
    bLogAbsent.getObject "Output/2025-07-21_cam1/detection_csv/detection_log.csv"
      = Except.error GetErr.noSuchKey
  ∧ bTransport.getObject "Output/2025-07-21_cam1/detection_csv/detection_log.csv"
      = Except.error GetErr.transport
  ∧ bNoCols.getObject "Output/2025-07-21_cam1/detection_csv/detection_log.csv"
      = Except.ok "foo\n1"
  ∧ parseCsv "foo\n1" = Except.ok ⟨["foo"], [[PyVal.str "1"]]⟩
  ∧ (fetchLog bLogAbsent "Output/2025-07-21_cam1/detection_csv/detection_log.csv"
        = Except.error ()
    ∧ fetchLog bLogAbsent "Output/2025-07-21_cam1/detection_csv/detection_log.csv"
        = fetchLog bTransport "Output/2025-07-21_cam1/detection_csv/detection_log.csv"
    ∧ fetchLog bNoCols "Output/2025-07-21_cam1/detection_csv/detection_log.csv"
        = Except.ok ⟨["foo"], [[PyVal.str "1"]]⟩) :=
  ⟨rfl, rfl, rfl, rfl,
    claim_C8_amended bLogAbsent bTransport bNoCols
      "Output/2025-07-21_cam1/detection_csv/detection_log.csv"
      GetErr.noSuchKey GetErr.transport "foo\n1" ⟨["foo"], [[PyVal.str "1"]]⟩
      rfl rfl rfl rfl⟩

/-- Column lookup searches the original header first. -/
theorem colIdx_append_of_mem (l1 l2 : List String) (c : String) (h : c ∈ l1) :
    colIdx (l1 ++ l2) c = colIdx l1 c := by
  induction l1 with
  | nil => cases h
  | cons x t ih =>
    by_cases hx : x = c
    · simp [colIdx, hx]
    · have h' : c ∈ t := by
        cases h with
        | head => exact absurd rfl hx
        | tail _ hm => exact hm
      simp [colIdx, hx, ih h']

/-- A name absent from the header has no column index. -/
theorem colIdx_eq_none_of_not_mem (l : List String) (c : String) (h : c ∉ l) :
    colIdx l c = none := by
  induction l with
  | nil => rfl
  | cons x t ih =>
    have hx : ¬ x = c := fun e => h (by rw [← e]; exact List.mem_cons_self x t)
    have ht : c ∉ t := fun hm => h (List.mem_cons_of_mem x hm)
    simp [colIdx, hx, ih ht]

/-- A freshly appended name indexes at the old header length. -/
theorem colIdx_append_self (l : List String) (c : String) (h : c ∉ l) :
    colIdx (l ++ [c]) c = some l.length := by
  induction l with
  | nil => simp [colIdx]
  | cons x t ih =>
    have hx : ¬ x = c := fun e => h (by rw [← e]; exact List.mem_cons_self x t)
    have ht : c ∉ t := fun hm => h (List.mem_cons_of_mem x hm)
    simp [colIdx, hx, ih ht]

/-- A found column index lies inside the header. -/
theorem colIdx_lt_length (l : List String) (c : String) (i : Nat)
    (h : colIdx l c = some i) : i < l.length := by
  induction l generalizing i with
  | nil => cases h
  | cons x t ih =>
    by_cases hx : x = c
    · simp [colIdx, hx] at h
      simp only [List.length_cons]
      omega
    · simp [colIdx, hx, Option.map_eq_some'] at h
      obtain ⟨j, hj, hji⟩ := h
      have := ih j hj
      simp [List.length_cons]
      omega

/-- Adding a fresh column leaves every existing column's cells
unchanged, provided the rows align with the header. -/
theorem getCol_addColumn_of_mem (df : Df) (c : String) (v : PyVal) (c' : String)
    (halign : ∀ r ∈ df.rows, r.length = df.columns.length)
    (hmem : c' ∈ df.columns) :
    getCol (addColumn df c v) c' = getCol df c' := by
  unfold getCol addColumn
  simp only
  rw [colIdx_append_of_mem _ _ _ hmem]
  rcases h : colIdx df.columns c' with _ | i
  · rfl
  · simp only [Option.map_some', List.map_map]
    congr 1
    apply List.map_congr_left
    intro r hr
    have hi : i < r.length := by
      rw [halign r hr]
      exact colIdx_lt_length _ _ _ h
    exact List.getD_append _ _ _ _ hi

/-- A freshly added column reads back as its constant default on every
row, provided rows align with the header. -/
theorem getCol_addColumn_self (df : Df) (c : String) (v : PyVal)
    (halign : ∀ r ∈ df.rows, r.length = df.columns.length)
    (hnot : c ∉ df.columns) :
    getCol (addColumn df c v) c = some (List.replicate df.rows.length v) := by
  unfold getCol addColumn
  simp only
  rw [colIdx_append_self _ _ hnot]
  simp only [Option.map_some', List.map_map]
  congr 1
  have hcell : ∀ r ∈ df.rows,
      (r ++ [v]).getD df.columns.length PyVal.nan = v := by
    intro r hr
    rw [← halign r hr, List.getD_append_right _ _ _ _ (Nat.le_refl _), Nat.sub_self]
    rfl
  calc df.rows.map (fun r => (r ++ [v]).getD df.columns.length PyVal.nan)
      = df.rows.map (fun _ => v) := List.map_congr_left hcell
    _ = List.replicate df.rows.length v := by
        induction df.rows with
        | nil => rfl
        | cons r rs ih => simp [List.replicate_succ, ih]

/-- `addColumn` keeps the row/header alignment. -/
theorem addColumn_align (df : Df) (c : String) (v : PyVal)
    (halign : ∀ r ∈ df.rows, r.length = df.columns.length) :
    ∀ r ∈ (addColumn df c v).rows, r.length = (addColumn df c v).columns.length := by
  intro r hr
  unfold addColumn at hr ⊢
  simp only at hr ⊢
  rw [List.mem_map] at hr
  obtain ⟨r0, hr0, rfl⟩ := hr
  simp [halign r0 hr0]

/-- A `withDefault` step keeps the row/header alignment. -/
theorem withDefault_align (df : Df) (n : String) (v : PyVal)
    (halign : ∀ r ∈ df.rows, r.length = df.columns.length) :
    ∀ r ∈ (withDefault df n v).rows, r.length = (withDefault df n v).columns.length := by
  unfold withDefault
  split_ifs with h
  · exact halign
  · exact addColumn_align df n v halign

/-- A `withDefault` step keeps every existing column name. -/
theorem withDefault_mem_of_mem (df : Df) (n : String) (v : PyVal) (c : String)
    (h : c ∈ df.columns) : c ∈ (withDefault df n v).columns := by
  unfold withDefault addColumn
  split_ifs with hn
  · exact h
  · exact List.mem_append_left _ h

/-- After a `withDefault` step its own name is present. -/
theorem withDefault_mem_self (df : Df) (n : String) (v : PyVal) :
    n ∈ (withDefault df n v).columns := by
  unfold withDefault addColumn
  split_ifs with hn
  · exact hn
  · exact List.mem_append_right _ (List.mem_singleton_self n)

/-- A `withDefault` step adds no name other than its own. -/
theorem withDefault_mem_iff (df : Df) (n : String) (v : PyVal) (c : String)
    (h : c ≠ n) : c ∈ (withDefault df n v).columns ↔ c ∈ df.columns := by
  unfold withDefault addColumn
  split_ifs with hn
  · exact Iff.rfl
  · simp [List.mem_append, h]

/-- A `withDefault` step keeps the number of rows. -/
theorem withDefault_rows_length (df : Df) (n : String) (v : PyVal) :
    (withDefault df n v).rows.length = df.rows.length := by
  unfold withDefault addColumn
  split_ifs with hn
  · rfl
  · simp

/-- A `withDefault` step on a present column is the identity. -/
theorem withDefault_of_mem (df : Df) (n : String) (v : PyVal)
    (h : n ∈ df.columns) : withDefault df n v = df := by
  unfold withDefault
  rw [if_pos h]

/-- A `withDefault` step preserves the cells of present columns. -/
theorem getCol_withDefault_of_mem (df : Df) (n : String) (v : PyVal) (c : String)
    (halign : ∀ r ∈ df.rows, r.length = df.columns.length)
    (h : c ∈ df.columns) : getCol (withDefault df n v) c = getCol df c := by
  unfold withDefault
  split_ifs with hn
  · rfl
  · exact getCol_addColumn_of_mem df n v c halign h

/-- A `withDefault` step on an absent column defaults every row once. -/
theorem getCol_withDefault_self (df : Df) (n : String) (v : PyVal)
    (halign : ∀ r ∈ df.rows, r.length = df.columns.length)
    (h : n ∉ df.columns) :
    getCol (withDefault df n v) n = some (List.replicate df.rows.length v) := by
  unfold withDefault
  rw [if_neg h]
  exact getCol_addColumn_self df n v halign h

/-- A `withDefault` step on an absent column puts its name exactly once
in the header. -/
theorem withDefault_count_self (df : Df) (n : String) (v : PyVal)
    (h : n ∉ df.columns) : (withDefault df n v).columns.count n = 1 := by
  unfold withDefault addColumn
  rw [if_neg h]
  simp [List.count_append, List.count_eq_zero_of_not_mem h]

/-- A `withDefault` step leaves the multiplicity of other names alone. -/
theorem withDefault_count_other (df : Df) (n : String) (v : PyVal) (c : String)
    (h : c ≠ n) : (withDefault df n v).columns.count c = df.columns.count c := by
  unfold withDefault addColumn
  split_ifs with hn
  · rfl
  · have hnc : ¬ n = c := fun e => h e.symm
    simp [List.count_append, List.count_singleton', hnc]

/-- Claim C3 counterexample: when `video_link` is missing and a clip
exists, the defaulted value is the s3 URI built from the bucket name and
the first clip's storage key — not the first discovered clip key itself,
which would be the clip directory followed by the clip file name. -/
theorem claim_C3_counterexample :
    getCol (applyDefaults "b" dfBoar "Output/v/video_clips" ["a.mp4"]) "video_link"
      = some [PyVal.str "s3://b/Output/v/video_clips/a.mp4"]
  ∧ getCol (applyDefaults "b" dfBoar "Output/v/video_clips" ["a.mp4"]) "video_link"
      ≠ some [PyVal.str ("Output/v/video_clips" ++ "/" ++ "a.mp4")] :=
  ⟨by decide, by decide⟩

/-- Claim C3 amended: at resolution time each column missing from the
fetched log is defaulted exactly once — `latitude` to `12.9716`,
`longitude` to `77.5946`, and `video_link` to the s3 URI
`s3://` bucket `/` clips-prefix `/` first clip file when at least one
clip exists, else to the sentinel `N/A` — while columns present in the
source are left unchanged, and a log already holding all three columns
is returned untouched. -/
theorem claim_C3_amended (bucket clipsDir : String) (df : Df) (clip_files : List String)
    (halign : ∀ r ∈ df.rows, r.length = df.columns.length) :
    (∀ c ∈ df.columns,
        getCol (applyDefaults bucket df clipsDir clip_files) c = getCol df c)
  ∧ ("latitude" ∉ df.columns →
      getCol (applyDefaults bucket df clipsDir clip_files) "latitude"
        = some (List.replicate df.rows.length (PyVal.floatLit "12.9716"))
      ∧ (applyDefaults bucket df clipsDir clip_files).columns.count "latitude" = 1)
  ∧ ("longitude" ∉ df.columns →
      getCol (applyDefaults bucket df clipsDir clip_files) "longitude"
        = some (List.replicate df.rows.length (PyVal.floatLit "77.5946"))
      ∧ (applyDefaults bucket df clipsDir clip_files).columns.count "longitude" = 1)
  ∧ ("video_link" ∉ df.columns →
      getCol (applyDefaults bucket df clipsDir clip_files) "video_link"
        = some (List.replicate df.rows.length
            (defaultVideoLink bucket clipsDir clip_files))
      ∧ (applyDefaults bucket df clipsDir clip_files).columns.count "video_link" = 1)
  ∧ ("latitude" ∈ df.columns → "longitude" ∈ df.columns → "video_link" ∈ df.columns →
      applyDefaults bucket df clipsDir clip_files = df) := by
  unfold applyDefaults
  set d1 := withDefault df "latitude" (PyVal.floatLit "12.9716") with hd1
  set d2 := withDefault d1 "longitude" (PyVal.floatLit "77.5946") with hd2
  set d3 := withDefault d2 "video_link" (defaultVideoLink bucket clipsDir clip_files)
    with hd3
  have align1 : ∀ r ∈ d1.rows, r.length = d1.columns.length :=
    withDefault_align df _ _ halign
  have align2 : ∀ r ∈ d2.rows, r.length = d2.columns.length :=
    withDefault_align d1 _ _ align1
  refine ⟨?_, ?_, ?_, ?_, ?_⟩
  · intro c hc
    have hc1 : c ∈ d1.columns := withDefault_mem_of_mem df _ _ c hc
    have hc2 : c ∈ d2.columns := withDefault_mem_of_mem d1 _ _ c hc1
    rw [hd3, getCol_withDefault_of_mem d2 _ _ c align2 hc2,
        hd2, getCol_withDefault_of_mem d1 _ _ c align1 hc1,
        hd1, getCol_withDefault_of_mem df _ _ c halign hc]
  · intro hno
    have h1 : getCol d1 "latitude"
        = some (List.replicate df.rows.length (PyVal.floatLit "12.9716")) := by
      rw [hd1]
      exact getCol_withDefault_self df _ _ halign hno
    have hm1 : "latitude" ∈ d1.columns := by
      rw [hd1]
      exact withDefault_mem_self df _ _
    have hm2 : "latitude" ∈ d2.columns := withDefault_mem_of_mem d1 _ _ _ hm1
    constructor
    · rw [hd3, getCol_withDefault_of_mem d2 _ _ _ align2 hm2,
          hd2, getCol_withDefault_of_mem d1 _ _ _ align1 hm1, h1]
    · have c1 : d1.columns.count "latitude" = 1 := by
        rw [hd1]
        exact withDefault_count_self df _ _ hno
      have c2 : d2.columns.count "latitude" = 1 := by
        rw [hd2, withDefault_count_other d1 _ _ _ (by decide)]
        exact c1
      rw [hd3, withDefault_count_other d2 _ _ _ (by decide)]
      exact c2
  · intro hno
    have hno1 : "longitude" ∉ d1.columns := by
      rw [hd1, withDefault_mem_iff df _ _ _ (by decide)]
      exact hno
    have hrl : d1.rows.length = df.rows.length := by
      rw [hd1]
      exact withDefault_rows_length df _ _
    have h2 : getCol d2 "longitude"
        = some (List.replicate df.rows.length (PyVal.floatLit "77.5946")) := by
      rw [hd2, getCol_withDefault_self d1 _ _ align1 hno1, hrl]
    have hm2 : "longitude" ∈ d2.columns := by
      rw [hd2]
      exact withDefault_mem_self d1 _ _
    constructor
    · rw [hd3, getCol_withDefault_of_mem d2 _ _ _ align2 hm2, h2]
    · have c2 : d2.columns.count "longitude" = 1 := by
        rw [hd2]
        exact withDefault_count_self d1 _ _ hno1
      rw [hd3, withDefault_count_other d2 _ _ _ (by decide)]
      exact c2
  · intro hno
    have hno1 : "video_link" ∉ d1.columns := by
      rw [hd1, withDefault_mem_iff df _ _ _ (by decide)]
      exact hno
    have hno2 : "video_link" ∉ d2.columns := by
      rw [hd2, withDefault_mem_iff d1 _ _ _ (by decide)]
      exact hno1
    have hrl : d2.rows.length = df.rows.length := by
      rw [hd2, withDefault_rows_length d1, hd1, withDefault_rows_length df]
    constructor
    · rw [hd3, getCol_withDefault_self d2 _ _ align2 hno2, hrl]
    · rw [hd3]
      exact withDefault_count_self d2 _ _ hno2
  · intro m1 m2 m3
    have e1 : d1 = df := by
      rw [hd1]
      exact withDefault_of_mem df _ _ m1
    have e2 : d2 = df := by
      rw [hd2, e1]
      exact withDefault_of_mem df _ _ m2
    rw [hd3, e2]
    exact withDefault_of_mem df _ _ m3

/-- Witness for the amended C3 at the fixture `dfBoar` with one clip:
both coordinates and the video link are defaulted once, and the two
present columns keep their cells. -/
theorem claim_C3_witness :
    (∀ r ∈ dfBoar.rows, r.length = dfBoar.columns.length)
  ∧ ((∀ c ∈ dfBoar.columns,
        getCol (applyDefaults "b" dfBoar "Output/v/video_clips" ["a.mp4"]) c
          = getCol dfBoar c)
    ∧ ("latitude" ∉ dfBoar.columns →
        getCol (applyDefaults "b" dfBoar "Output/v/video_clips" ["a.mp4"]) "latitude"
          = some (List.replicate dfBoar.rows.length (PyVal.floatLit "12.9716"))
        ∧ (applyDefaults "b" dfBoar "Output/v/video_clips" ["a.mp4"]).columns.count
            "latitude" = 1)
    ∧ ("longitude" ∉ dfBoar.columns →
        getCol (applyDefaults "b" dfBoar "Output/v/video_clips" ["a.mp4"]) "longitude"
          = some (List.replicate dfBoar.rows.length (PyVal.floatLit "77.5946"))
        ∧ (applyDefaults "b" dfBoar "Output/v/video_clips" ["a.mp4"]).columns.count
            "longitude" = 1)
    ∧ ("video_link" ∉ dfBoar.columns →
        getCol (applyDefaults "b" dfBoar "Output/v/video_clips" ["a.mp4"]) "video_link"
          = some (List.replicate dfBoar.rows.length
              (defaultVideoLink "b" "Output/v/video_clips" ["a.mp4"]))
        ∧ (applyDefaults "b" dfBoar "Output/v/video_clips" ["a.mp4"]).columns.count
            "video_link" = 1)
    ∧ ("latitude" ∈ dfBoar.columns → "longitude" ∈ dfBoar.columns
        → "video_link" ∈ dfBoar.columns →
        applyDefaults "b" dfBoar "Output/v/video_clips" ["a.mp4"] = dfBoar)) :=
  ⟨by decide, claim_C3_amended "b" "Output/v/video_clips" dfBoar ["a.mp4"] (by decide)⟩
